import Mathlib

/-!
Shallow embedding of the driver identity & authorization core of the
dispatch platform: credential authentication (two SQL revisions of
`authenticate_driver`), the `check_driver_exists` helper, the project
status transition function `update_driver_project_status`, the
dispatcher-side direct-access link generator, and the resilient fetch
retry controller from `DriverDataContext`.

Strings model SQL `text`; `Option` models nullable columns; a list of
records models a table, with list order standing for scan order (so
`List.find?` models `... LIMIT 1`).  Timestamps are abstract `Nat`
values passed in as `now`.
-/

/-- A row of the `drivers` table: identity, human name, normalized login
identifier (the `license` column), PIN, operational status
(`available | busy | offline`), and the nullable bearer `auth_token`. -/
structure Driver where
  id : String
  name : String
  license : String
  pin : String
  status : String
  auth_token : Option String
deriving DecidableEq, Repr

/-- SQL `TRIM(s)`: strip leading and trailing space characters.  Written
over the character list so that the kernel can evaluate it on concrete
strings. -/
def trimSpaces (s : String) : String :=
  ⟨((s.data.dropWhile (fun c => c == ' ')).reverse.dropWhile
      (fun c => c == ' ')).reverse⟩

/-- SQL `LOWER(s)`: lowercase every character (kernel-evaluable form). -/
def lowerStr (s : String) : String :=
  ⟨s.data.map Char.toLower⟩

/-- `LOWER(TRIM(s))`: the normalization applied to login identifiers by the
later revision of `authenticate_driver` and by `check_driver_exists`. -/
def normalizeLogin (s : String) : String :=
  lowerStr (trimSpaces s)

/-- Result row of the later revision of `authenticate_driver`
(migration "Fix Driver Authentication System", src/unnamed/part_001):
`(success, driver_id_result, driver_name, driver_license, error_message)`. -/
structure AuthResult where
  success : Bool
  driver_id_result : Option String
  driver_name : Option String
  driver_license : Option String
  error_message : Option String
deriving DecidableEq, Repr

/-- Later revision of `authenticate_driver` (src/unnamed/part_001 lines
18-67): reject empty inputs, then find the first driver whose
`LOWER(TRIM(license))` equals `LOWER(TRIM(driver_id))` and whose
`TRIM(pin)` equals `TRIM(driver_pin)` (`LIMIT 1`); on no match return the
single `Invalid credentials` failure row. -/
def authenticate_driver (drivers : List Driver) (driver_id driver_pin : String) :
    AuthResult :=
  if driver_id = "" then
    ⟨false, none, none, none, some "Driver ID is required"⟩
  else if driver_pin = "" then
    ⟨false, none, none, none, some "PIN is required"⟩
  else
    match drivers.find? (fun d =>
        normalizeLogin d.license == normalizeLogin driver_id && trimSpaces d.pin == trimSpaces driver_pin) with
    | some d => ⟨true, some d.id, some d.name, some d.license, none⟩
    | none => ⟨false, none, none, none, some "Invalid credentials"⟩

/-- Result row of the earlier revision of `authenticate_driver`
(migration 20250901153852_teal_term.sql):
`(success, driver_id, driver_name, driver_license)`. -/
structure AuthResultV1 where
  success : Bool
  driver_id : Option String
  driver_name : Option String
  driver_license : Option String
deriving DecidableEq, Repr

/-- Earlier revision of `authenticate_driver`
(src/supabase/migrations/20250901153852_teal_term.sql lines 14-51):
exact match on `license` and `pin`, additionally requiring
`status != 'offline'`; no input validation and no normalization. -/
def authenticate_driver_v1 (drivers : List Driver) (license_id pin_code : String) :
    AuthResultV1 :=
  match drivers.find? (fun d =>
      d.license == license_id && d.pin == pin_code && d.status != "offline") with
  | some d => ⟨true, some d.id, some d.name, some d.license⟩
  | none => ⟨false, none, none, none⟩

/-- Result row of `check_driver_exists`
(`exists`, `license_found`, `pin_found`, `name_found`); the first column is
named `row_exists` here because `exists` is reserved in Lean. -/
structure CheckResult where
  row_exists : Bool
  license_found : Option String
  pin_found : Option String
  name_found : Option String
deriving DecidableEq, Repr

/-- The `check_driver_exists` function (src/unnamed/part_001 lines 72-101),
granted `EXECUTE ... TO anon`: given only a license, return the first
driver matching `LOWER(TRIM(license)) = LOWER(TRIM(driver_license))`
together with that driver's stored license, PIN and name. -/
def check_driver_exists (drivers : List Driver) (driver_license : String) :
    CheckResult :=
  match drivers.find? (fun d => normalizeLogin d.license == normalizeLogin driver_license) with
  | some d => ⟨true, some d.license, some d.pin, some d.name⟩
  | none => ⟨false, none, none, none⟩

/-- Membership plus the find? predicate holding only at elements equal to `a`
forces `find?` to return `a` itself. -/
theorem find?_eq_of_mem_of_unique {α : Type} (l : List α) (p : α → Bool) (a : α)
    (ha : a ∈ l) (hpa : p a = true)
    (huniq : ∀ b ∈ l, p b = true → b = a) :
    l.find? p = some a := by
  cases h : l.find? p with
  | none =>
      rw [List.find?_eq_none] at h
      exact absurd hpa (h a ha)
  | some b =>
      have hb : b ∈ l := List.mem_of_find?_eq_some h
      have hpb : p b = true := List.find?_some h
      rw [huniq b hb hpb]

/-- C4: for every stored driver whose normalized login is unique in the
store, any supplied identifier that normalizes to the stored identifier
(differing only in letter case or surrounding whitespace) together with a
PIN that trims to the stored trimmed PIN authenticates successfully to
that same driver's identity and name. -/
theorem auth_normalized_id_succeeds (drivers : List Driver) (d : Driver)
    (sid spin : String)
    (hd : d ∈ drivers)
    (huniq : ∀ d' ∈ drivers, normalizeLogin d'.license = normalizeLogin d.license → d' = d)
    (hsid : normalizeLogin sid = normalizeLogin d.license)
    (hspin : trimSpaces spin = trimSpaces d.pin)
    (hne1 : sid ≠ "") (hne2 : spin ≠ "") :
    authenticate_driver drivers sid spin =
      ⟨true, some d.id, some d.name, some d.license, none⟩ := by
  unfold authenticate_driver
  rw [if_neg hne1, if_neg hne2]
  have hfind : drivers.find? (fun x =>
      normalizeLogin x.license == normalizeLogin sid && trimSpaces x.pin == trimSpaces spin) = some d := by
    apply find?_eq_of_mem_of_unique drivers _ d hd
    · simp [hsid, hspin]
    · intro b hb hpb
      simp only [Bool.and_eq_true, beq_iff_eq] at hpb
      exact huniq b hb (hsid ▸ hpb.1)
  rw [hfind]

/-- Witness for C4: the spec's worked example — stored driver with license
`DRV001` and PIN `1234` authenticates when supplied `"  drv001 "` and
`"1234"`. -/
theorem auth_normalized_id_succeeds_witness :
    authenticate_driver
      [⟨"uuid-1", "Alice", "DRV001", "1234", "available", none⟩]
      "  drv001 " "1234" =
      ⟨true, some "uuid-1", some "Alice", some "DRV001", none⟩ :=
  auth_normalized_id_succeeds
    [⟨"uuid-1", "Alice", "DRV001", "1234", "available", none⟩]
    ⟨"uuid-1", "Alice", "DRV001", "1234", "available", none⟩
    "  drv001 " "1234"
    (by decide) (by decide) (by decide) (by decide) (by decide) (by decide)

/-- Failed credential lookups all collapse to the single
`Invalid credentials` row of `authenticate_driver`. -/
theorem authenticate_driver_eq_invalid (s : List Driver) (sid spin : String)
    (hne1 : sid ≠ "") (hne2 : spin ≠ "")
    (h : ∀ d ∈ s, ¬(normalizeLogin d.license = normalizeLogin sid ∧
        trimSpaces d.pin = trimSpaces spin)) :
    authenticate_driver s sid spin =
      ⟨false, none, none, none, some "Invalid credentials"⟩ := by
  unfold authenticate_driver
  rw [if_neg hne1, if_neg hne2]
  have hfind : s.find? (fun d =>
      normalizeLogin d.license == normalizeLogin sid &&
        trimSpaces d.pin == trimSpaces spin) = none := by
    rw [List.find?_eq_none]
    intro d hd
    simp only [Bool.and_eq_true, beq_iff_eq, not_and]
    intro h1 h2
    exact h d hd ⟨h1, h2⟩
  rw [hfind]

/-- C5: for non-empty credential pairs, an unknown login identifier and a
known identifier with a wrong PIN produce the very same
`Invalid credentials` result row, so the two failure causes are
indistinguishable to the caller. -/
theorem auth_failure_nonenumerable (s1 s2 : List Driver) (sid spin : String)
    (hne1 : sid ≠ "") (hne2 : spin ≠ "")
    (h1 : ∀ d ∈ s1, ¬(normalizeLogin d.license = normalizeLogin sid ∧
        trimSpaces d.pin = trimSpaces spin))
    (h2 : ∀ d ∈ s2, ¬(normalizeLogin d.license = normalizeLogin sid ∧
        trimSpaces d.pin = trimSpaces spin)) :
    authenticate_driver s1 sid spin =
      ⟨false, none, none, none, some "Invalid credentials"⟩ ∧
    authenticate_driver s1 sid spin = authenticate_driver s2 sid spin := by
  have e1 := authenticate_driver_eq_invalid s1 sid spin hne1 hne2 h1
  have e2 := authenticate_driver_eq_invalid s2 sid spin hne1 hne2 h2
  exact ⟨e1, by rw [e1, e2]⟩

/-- Witness for C5: the spec's wrong-PIN example (`DRV001` / `4321` against
the stored PIN `1234`) returns the same row as the same credentials against
an empty store (unknown identifier). -/
theorem auth_failure_nonenumerable_witness :
    authenticate_driver
        [⟨"uuid-1", "Alice", "DRV001", "1234", "available", none⟩]
        "DRV001" "4321" =
      ⟨false, none, none, none, some "Invalid credentials"⟩ ∧
    authenticate_driver
        [⟨"uuid-1", "Alice", "DRV001", "1234", "available", none⟩]
        "DRV001" "4321" =
      authenticate_driver [] "DRV001" "4321" :=
  auth_failure_nonenumerable
    [⟨"uuid-1", "Alice", "DRV001", "1234", "available", none⟩] []
    "DRV001" "4321" (by decide) (by decide) (by decide) (by decide)

/-- C8: the two revisions of `authenticate_driver` are not equivalent — a
concrete driver with status `offline` is rejected by the earlier revision
but accepted with the same correct credentials by the later one, while for
every driver whose status is not `offline` both revisions succeed on that
driver's exact stored credentials. -/
theorem auth_revisions_inequivalent (ds : List Driver) (d : Driver)
    (hd : d ∈ ds) (hst : d.status ≠ "offline")
    (hl : d.license ≠ "") (hp : d.pin ≠ "") :
    ((authenticate_driver_v1
        [⟨"uuid-9", "Olaf", "DRV009", "5678", "offline", none⟩]
        "DRV009" "5678").success = false ∧
     (authenticate_driver
        [⟨"uuid-9", "Olaf", "DRV009", "5678", "offline", none⟩]
        "DRV009" "5678").success = true) ∧
    (authenticate_driver_v1 ds d.license d.pin).success = true ∧
    (authenticate_driver ds d.license d.pin).success = true := by
  refine ⟨by decide, ?_, ?_⟩
  · unfold authenticate_driver_v1
    cases h : ds.find? (fun x =>
        x.license == d.license && x.pin == d.pin && x.status != "offline") with
    | none =>
        rw [List.find?_eq_none] at h
        exact absurd (by simp [hst]) (h d hd)
    | some x => rfl
  · unfold authenticate_driver
    rw [if_neg hl, if_neg hp]
    cases h : ds.find? (fun x =>
        normalizeLogin x.license == normalizeLogin d.license &&
          trimSpaces x.pin == trimSpaces d.pin) with
    | none =>
        rw [List.find?_eq_none] at h
        exact absurd (by simp) (h d hd)
    | some x => rfl

/-- Witness for C8: an available driver `Carol` is authenticated by both
revisions on her exact stored credentials, while the fixed offline example
separates them. -/
theorem auth_revisions_inequivalent_witness :
    ((authenticate_driver_v1
        [⟨"uuid-9", "Olaf", "DRV009", "5678", "offline", none⟩]
        "DRV009" "5678").success = false ∧
     (authenticate_driver
        [⟨"uuid-9", "Olaf", "DRV009", "5678", "offline", none⟩]
        "DRV009" "5678").success = true) ∧
    (authenticate_driver_v1
        [⟨"uuid-2", "Carol", "DRV002", "9999", "available", none⟩]
        "DRV002" "9999").success = true ∧
    (authenticate_driver
        [⟨"uuid-2", "Carol", "DRV002", "9999", "available", none⟩]
        "DRV002" "9999").success = true :=
  auth_revisions_inequivalent
    [⟨"uuid-2", "Carol", "DRV002", "9999", "available", none⟩]
    ⟨"uuid-2", "Carol", "DRV002", "9999", "available", none⟩
    (by decide) (by decide) (by decide) (by decide)

/-- C9: `check_driver_exists` — executable by anonymous callers and taking
only a login identifier — returns the matching driver's stored PIN and name
in cleartext, and returns a distinguishable `row_exists = false` row when no
driver matches, so identifiers are enumerable and PINs recoverable without
any PIN or token. -/
theorem check_driver_exists_leaks_pin (ds : List Driver) (d : Driver)
    (supplied : String)
    (hd : d ∈ ds)
    (huniq : ∀ d' ∈ ds, normalizeLogin d'.license = normalizeLogin d.license → d' = d)
    (hs : normalizeLogin supplied = normalizeLogin d.license) :
    check_driver_exists ds supplied =
      ⟨true, some d.license, some d.pin, some d.name⟩ ∧
    (∀ ds' : List Driver,
      (∀ d' ∈ ds', normalizeLogin d'.license ≠ normalizeLogin supplied) →
      check_driver_exists ds' supplied = ⟨false, none, none, none⟩) := by
  constructor
  · unfold check_driver_exists
    have hfind : ds.find? (fun x =>
        normalizeLogin x.license == normalizeLogin supplied) = some d := by
      apply find?_eq_of_mem_of_unique ds _ d hd
      · simp [hs]
      · intro b hb hpb
        simp only [beq_iff_eq] at hpb
        exact huniq b hb (hs ▸ hpb)
    rw [hfind]
  · intro ds' hnone
    unfold check_driver_exists
    have hfind : ds'.find? (fun x =>
        normalizeLogin x.license == normalizeLogin supplied) = none := by
      rw [List.find?_eq_none]
      intro x hx
      simp only [beq_iff_eq]
      exact hnone x hx
    rw [hfind]

/-- Witness for C9: supplying only `" drv001"` recovers Alice's stored PIN
`1234` and name; an empty store is distinguishable. -/
theorem check_driver_exists_leaks_pin_witness :
    check_driver_exists
        [⟨"uuid-1", "Alice", "DRV001", "1234", "available", none⟩]
        " drv001" =
      ⟨true, some "DRV001", some "1234", some "Alice"⟩ ∧
    (∀ ds' : List Driver,
      (∀ d' ∈ ds', normalizeLogin d'.license ≠ normalizeLogin " drv001") →
      check_driver_exists ds' " drv001" = ⟨false, none, none, none⟩) :=
  check_driver_exists_leaks_pin
    [⟨"uuid-1", "Alice", "DRV001", "1234", "available", none⟩]
    ⟨"uuid-1", "Alice", "DRV001", "1234", "available", none⟩
    " drv001" (by decide) (by decide) (by decide)

/-- The dispatcher-side direct-access link generator
(`generateDirectLink` in src/unnamed/part_000 lines 35-38):
the URL credential segment is `driver.auth_token || driver.id`, where the
JavaScript `||` falls back on a null/undefined (here `none`) or empty-string
token. -/
def generateDirectLink (baseUrl : String) (driver : Driver) : String :=
  baseUrl ++ "/driver/auth/" ++
    (match driver.auth_token with
     | some t => if t = "" then driver.id else t
     | none => driver.id)

/-- C10: when a driver's stored bearer token is null/absent, the generated
direct-access link embeds the driver's raw UUID primary key in place of a
bearer token. -/
theorem direct_link_falls_back_to_uuid (baseUrl : String) (d : Driver)
    (h : d.auth_token = none) :
    generateDirectLink baseUrl d = baseUrl ++ "/driver/auth/" ++ d.id := by
  unfold generateDirectLink
  rw [h]

/-- Witness for C10: a tokenless driver's link ends in the raw UUID. -/
theorem direct_link_falls_back_to_uuid_witness :
    generateDirectLink "https://app.example"
      ⟨"uuid-1", "Alice", "DRV001", "1234", "available", none⟩ =
      "https://app.example" ++ "/driver/auth/" ++ "uuid-1" :=
  direct_link_falls_back_to_uuid "https://app.example"
    ⟨"uuid-1", "Alice", "DRV001", "1234", "available", none⟩ rfl

/-- A row of the `projects` table, restricted to the key columns and the
seven columns touched by `update_driver_project_status`'s `UPDATE ... SET`;
`driver_id` is nullable (unassigned projects). -/
structure Project where
  id : String
  driver_id : Option String
  client_name : String
  status : String
  acceptance_status : String
  completed_at : Option Nat
  completed_by : Option String
  accepted_at : Option Nat
  accepted_by : Option String
  started_at : Option Nat
deriving DecidableEq, Repr

/-- The `update_data` jsonb document built by `update_driver_project_status`
(migration 20250901155854_velvet_spark.sql): absent keys are `none`. -/
structure UpdateDoc where
  status : Option String := none
  acceptance_status : Option String := none
  completed_at : Option Nat := none
  completed_by : Option String := none
  accepted_at : Option Nat := none
  accepted_by : Option String := none
  started_at : Option Nat := none
deriving DecidableEq, Repr

/-- Build the `update_data` document for a target status, mirroring the
`IF new_status = 'completed' ... ELSE ...` block of
`update_driver_project_status`: `completed` sets lifecycle status plus
completion stamp and actor; every other status sets `acceptance_status`,
with `accepted` additionally stamping acceptance and `started` stamping
the start timestamp. -/
def buildUpdateData (new_status driver_uuid : String) (now : Nat) : UpdateDoc :=
  if new_status = "completed" then
    { status := some "completed", completed_at := some now,
      completed_by := some driver_uuid }
  else
    let base : UpdateDoc := { acceptance_status := some new_status }
    if new_status = "accepted" then
      { base with accepted_at := some now, accepted_by := some driver_uuid }
    else if new_status = "started" then
      { base with started_at := some now }
    else
      base

/-- The `UPDATE projects SET col = COALESCE(update_data->>col, col)`
clause applied to one row: a column keeps its old value exactly when the
update document carries no value for it. -/
def applySet (p : Project) (u : UpdateDoc) : Project :=
  { p with
    status := u.status.getD p.status,
    acceptance_status := u.acceptance_status.getD p.acceptance_status,
    completed_at := u.completed_at.or p.completed_at,
    completed_by := u.completed_by.or p.completed_by,
    accepted_at := u.accepted_at.or p.accepted_at,
    accepted_by := u.accepted_by.or p.accepted_by,
    started_at := u.started_at.or p.started_at }

/-- One row transitioned to `new_status` by the acting driver at time
`now`. -/
def applyTransition (p : Project) (new_status driver_uuid : String)
    (now : Nat) : Project :=
  applySet p (buildUpdateData new_status driver_uuid now)

/-- The ownership predicate `id = project_uuid AND driver_id = driver_uuid`
used both by the `EXISTS` check and by the `UPDATE ... WHERE` clause. -/
def ownedBy (project_uuid driver_uuid : String) (p : Project) : Bool :=
  p.id == project_uuid && p.driver_id == some driver_uuid

/-- The transition function `update_driver_project_status(project_uuid,
driver_uuid, new_status)` (migration 20250901155854_velvet_spark.sql —
the spec's `transition(projectId, driverId, targetStatus)`):
first the `IF NOT EXISTS ... RAISE EXCEPTION` ownership check, then the
`UPDATE` with the same ownership predicate repeated in its `WHERE` clause,
returning `FOUND`.  To model the race between check and write the two
steps read separate table snapshots `dbCheck` and `dbWrite`; a
single-snapshot call passes the same table twice.  The result is the
post-state of the table paired with `Except.error` for the raised
exception or `Except.ok FOUND`. -/
def update_driver_project_status (dbCheck dbWrite : List Project)
    (project_uuid driver_uuid new_status : String) (now : Nat) :
    List Project × Except String Bool :=
  if dbCheck.any (ownedBy project_uuid driver_uuid) then
    (dbWrite.map (fun p =>
        if ownedBy project_uuid driver_uuid p then
          applyTransition p new_status driver_uuid now
        else p),
     Except.ok (dbWrite.any (ownedBy project_uuid driver_uuid)))
  else
    (dbWrite, Except.error "Project not found or not assigned to this driver")

/-- C1: a transition call whose `driverId` does not own the project leaves
the table untouched and fails with the one `NotOwned` exception, whose
shape is the same whether the project belongs to another driver or does
not exist at all (the right-hand side does not depend on which case
holds). -/
theorem transition_not_owned_unchanged (db : List Project)
    (project_uuid driver_uuid new_status : String) (now : Nat)
    (h : ∀ p ∈ db, p.id = project_uuid → p.driver_id ≠ some driver_uuid) :
    update_driver_project_status db db project_uuid driver_uuid new_status now =
      (db, Except.error "Project not found or not assigned to this driver") := by
  unfold update_driver_project_status
  have hany : db.any (ownedBy project_uuid driver_uuid) = false := by
    rw [List.any_eq_false]
    intro p hp
    unfold ownedBy
    simp only [Bool.and_eq_true, beq_iff_eq, not_and]
    exact h p hp
  rw [hany]
  simp

/-- Witness for C1: driver `D2` calling on `P1`, which is assigned to `D1`,
gets the `NotOwned` exception and an unchanged table — and so does a call
naming a project id that does not exist. -/
theorem transition_not_owned_unchanged_witness :
    update_driver_project_status
        [⟨"P1", some "D1", "client", "active", "pending",
          none, none, none, none, none⟩]
        [⟨"P1", some "D1", "client", "active", "pending",
          none, none, none, none, none⟩]
        "P1" "D2" "accepted" 5 =
      ([⟨"P1", some "D1", "client", "active", "pending",
          none, none, none, none, none⟩],
       Except.error "Project not found or not assigned to this driver") :=
  transition_not_owned_unchanged
    [⟨"P1", some "D1", "client", "active", "pending",
      none, none, none, none, none⟩]
    "P1" "D2" "accepted" 5 (by decide)

/-- Mapping a function that fixes every member of a list leaves the list
unchanged. -/
theorem map_fixes_of_forall {α : Type} (l : List α) (f : α → α)
    (h : ∀ x ∈ l, f x = x) : l.map f = l := by
  induction l with
  | nil => rfl
  | cons a t ih =>
      simp only [List.map_cons, h a (List.mem_cons_self a t)]
      rw [ih (fun x hx => h x (List.mem_cons_of_mem a hx))]

/-- C2: the transition returns `Except.ok true` only when the write itself
matched a row under the ownership predicate; when the ownership check
passed but a concurrent reassignment makes the write match zero rows, the
call returns the `Except.ok false` rejection — distinct from the
`NotOwned` exception — and the table is left unchanged. -/
theorem transition_zero_rows_rejected (dbCheck dbWrite : List Project)
    (project_uuid driver_uuid new_status : String) (now : Nat)
    (hC : ∃ p ∈ dbCheck, ownedBy project_uuid driver_uuid p = true)
    (hW : ∀ p ∈ dbWrite, ownedBy project_uuid driver_uuid p = false) :
    update_driver_project_status dbCheck dbWrite
        project_uuid driver_uuid new_status now = (dbWrite, Except.ok false) ∧
    (∀ msg : String, (Except.ok false : Except String Bool) ≠ Except.error msg) ∧
    (∀ dC dW : List Project,
      (update_driver_project_status dC dW
          project_uuid driver_uuid new_status now).2 = Except.ok true →
      ∃ p ∈ dW, ownedBy project_uuid driver_uuid p = true) := by
  have hanyC : dbCheck.any (ownedBy project_uuid driver_uuid) = true := by
    rw [List.any_eq_true]
    obtain ⟨p, hp, hpo⟩ := hC
    exact ⟨p, hp, hpo⟩
  have hanyW : dbWrite.any (ownedBy project_uuid driver_uuid) = false := by
    rw [List.any_eq_false]
    intro p hp
    rw [hW p hp]
    exact Bool.false_ne_true
  refine ⟨?_, ?_, ?_⟩
  · unfold update_driver_project_status
    rw [hanyC, hanyW]
    simp only [if_true]
    rw [map_fixes_of_forall]
    intro p hp
    rw [hW p hp]
    simp
  · intro msg hcon
    exact Except.noConfusion hcon
  · intro dC dW hok
    unfold update_driver_project_status at hok
    by_cases hc : dC.any (ownedBy project_uuid driver_uuid) = true
    · rw [hc] at hok
      simp only [if_true, Except.ok.injEq] at hok
      rw [List.any_eq_true] at hok
      exact hok
    · rw [Bool.not_eq_true] at hc
      rw [hc] at hok
      simp at hok

/-- Witness for C2: `P1` is owned by `D1` at check time but reassigned to
`D2` before the write; `D1`'s transition is rejected with `ok false` and
the reassigned table is untouched. -/
theorem transition_zero_rows_rejected_witness :
    update_driver_project_status
        [⟨"P1", some "D1", "client", "active", "pending",
          none, none, none, none, none⟩]
        [⟨"P1", some "D2", "client", "active", "pending",
          none, none, none, none, none⟩]
        "P1" "D1" "accepted" 5 =
      ([⟨"P1", some "D2", "client", "active", "pending",
          none, none, none, none, none⟩], Except.ok false) ∧
    (∀ msg : String, (Except.ok false : Except String Bool) ≠ Except.error msg) ∧
    (∀ dC dW : List Project,
      (update_driver_project_status dC dW "P1" "D1" "accepted" 5).2 =
          Except.ok true →
      ∃ p ∈ dW, ownedBy "P1" "D1" p = true) :=
  transition_zero_rows_rejected
    [⟨"P1", some "D1", "client", "active", "pending",
      none, none, none, none, none⟩]
    [⟨"P1", some "D2", "client", "active", "pending",
      none, none, none, none, none⟩]
    "P1" "D1" "accepted" 5 (by decide) (by decide)

/-- An owned project makes the ownership check and the write predicate
succeed, so the transition returns `ok true` and the transitioned row is a
member of the post-state table. -/
theorem transition_owned_ok (db : List Project) (p : Project)
    (driver_uuid new_status : String) (now : Nat)
    (hp : p ∈ db) (hown : p.driver_id = some driver_uuid) :
    (update_driver_project_status db db p.id driver_uuid new_status now).2 =
      Except.ok true ∧
    applyTransition p new_status driver_uuid now ∈
      (update_driver_project_status db db p.id driver_uuid new_status now).1 := by
  have hownB : ownedBy p.id driver_uuid p = true := by
    simp [ownedBy, hown]
  have hany : db.any (ownedBy p.id driver_uuid) = true := by
    rw [List.any_eq_true]
    exact ⟨p, hp, hownB⟩
  constructor
  · unfold update_driver_project_status
    rw [hany]
    simp
  · unfold update_driver_project_status
    rw [hany]
    simp only [if_true]
    have := List.mem_map_of_mem (fun q =>
        if ownedBy p.id driver_uuid q then
          applyTransition q new_status driver_uuid now
        else q) hp
    simpa [hownB] using this

/-- C3: completing an owned project succeeds, sets the top-level lifecycle
status to `completed`, stamps the completion timestamp and the acting
driver, and leaves the project's prior `acceptance_status` value untouched
(the `completed` branch of the update document carries no
`acceptance_status` key, so the `COALESCE` keeps the old value). -/
theorem transition_completed_preserves_acceptance (db : List Project)
    (p : Project) (driver_uuid : String) (now : Nat)
    (hp : p ∈ db) (hown : p.driver_id = some driver_uuid) :
    (update_driver_project_status db db p.id driver_uuid "completed" now).2 =
      Except.ok true ∧
    applyTransition p "completed" driver_uuid now ∈
      (update_driver_project_status db db p.id driver_uuid "completed" now).1 ∧
    (applyTransition p "completed" driver_uuid now).status = "completed" ∧
    (applyTransition p "completed" driver_uuid now).completed_at = some now ∧
    (applyTransition p "completed" driver_uuid now).completed_by =
      some driver_uuid ∧
    (applyTransition p "completed" driver_uuid now).acceptance_status =
      p.acceptance_status := by
  obtain ⟨h1, h2⟩ :=
    transition_owned_ok db p driver_uuid "completed" now hp hown
  refine ⟨h1, h2, ?_, ?_, ?_, ?_⟩ <;>
    simp [applyTransition, buildUpdateData, applySet]

/-- Witness for C3: completing `P1` (previously `accepted`) keeps
`acceptance_status = "accepted"` while stamping completion. -/
theorem transition_completed_preserves_acceptance_witness :
    (update_driver_project_status
        [⟨"P1", some "D1", "client", "active", "accepted",
          none, none, some 3, some "D1", none⟩]
        [⟨"P1", some "D1", "client", "active", "accepted",
          none, none, some 3, some "D1", none⟩]
        "P1" "D1" "completed" 9).2 = Except.ok true ∧
    applyTransition
        ⟨"P1", some "D1", "client", "active", "accepted",
          none, none, some 3, some "D1", none⟩ "completed" "D1" 9 ∈
      (update_driver_project_status
        [⟨"P1", some "D1", "client", "active", "accepted",
          none, none, some 3, some "D1", none⟩]
        [⟨"P1", some "D1", "client", "active", "accepted",
          none, none, some 3, some "D1", none⟩]
        "P1" "D1" "completed" 9).1 ∧
    (applyTransition
        ⟨"P1", some "D1", "client", "active", "accepted",
          none, none, some 3, some "D1", none⟩ "completed" "D1" 9).status =
      "completed" ∧
    (applyTransition
        ⟨"P1", some "D1", "client", "active", "accepted",
          none, none, some 3, some "D1", none⟩ "completed" "D1" 9).completed_at =
      some 9 ∧
    (applyTransition
        ⟨"P1", some "D1", "client", "active", "accepted",
          none, none, some 3, some "D1", none⟩ "completed" "D1" 9).completed_by =
      some "D1" ∧
    (applyTransition
        ⟨"P1", some "D1", "client", "active", "accepted",
          none, none, some 3, some "D1", none⟩ "completed" "D1" 9).acceptance_status =
      (⟨"P1", some "D1", "client", "active", "accepted",
          none, none, some 3, some "D1", none⟩ : Project).acceptance_status :=
  transition_completed_preserves_acceptance
    [⟨"P1", some "D1", "client", "active", "accepted",
      none, none, some 3, some "D1", none⟩]
    ⟨"P1", some "D1", "client", "active", "accepted",
      none, none, some 3, some "D1", none⟩
    "D1" 9 (by decide) rfl

/-- C6: starting an owned project succeeds, sets `acceptance_status` to
`started` and stamps a non-null `started_at` timestamp on the transitioned
row. -/
theorem transition_started_stamps_timestamp (db : List Project)
    (p : Project) (driver_uuid : String) (now : Nat)
    (hp : p ∈ db) (hown : p.driver_id = some driver_uuid) :
    (update_driver_project_status db db p.id driver_uuid "started" now).2 =
      Except.ok true ∧
    applyTransition p "started" driver_uuid now ∈
      (update_driver_project_status db db p.id driver_uuid "started" now).1 ∧
    (applyTransition p "started" driver_uuid now).acceptance_status =
      "started" ∧
    (applyTransition p "started" driver_uuid now).started_at = some now ∧
    (applyTransition p "started" driver_uuid now).started_at ≠ none := by
  obtain ⟨h1, h2⟩ :=
    transition_owned_ok db p driver_uuid "started" now hp hown
  refine ⟨h1, h2, ?_, ?_, ?_⟩ <;>
    simp [applyTransition, buildUpdateData, applySet]

/-- Witness for C6: starting `P1` stamps `started_at = some 7` and sets
acceptance status to `started`. -/
theorem transition_started_stamps_timestamp_witness :
    (update_driver_project_status
        [⟨"P1", some "D1", "client", "active", "accepted",
          none, none, some 3, some "D1", none⟩]
        [⟨"P1", some "D1", "client", "active", "accepted",
          none, none, some 3, some "D1", none⟩]
        "P1" "D1" "started" 7).2 = Except.ok true ∧
    applyTransition
        ⟨"P1", some "D1", "client", "active", "accepted",
          none, none, some 3, some "D1", none⟩ "started" "D1" 7 ∈
      (update_driver_project_status
        [⟨"P1", some "D1", "client", "active", "accepted",
          none, none, some 3, some "D1", none⟩]
        [⟨"P1", some "D1", "client", "active", "accepted",
          none, none, some 3, some "D1", none⟩]
        "P1" "D1" "started" 7).1 ∧
    (applyTransition
        ⟨"P1", some "D1", "client", "active", "accepted",
          none, none, some 3, some "D1", none⟩ "started" "D1" 7).acceptance_status =
      "started" ∧
    (applyTransition
        ⟨"P1", some "D1", "client", "active", "accepted",
          none, none, some 3, some "D1", none⟩ "started" "D1" 7).started_at =
      some 7 ∧
    (applyTransition
        ⟨"P1", some "D1", "client", "active", "accepted",
          none, none, some 3, some "D1", none⟩ "started" "D1" 7).started_at ≠
      none :=
  transition_started_stamps_timestamp
    [⟨"P1", some "D1", "client", "active", "accepted",
      none, none, some 3, some "D1", none⟩]
    ⟨"P1", some "D1", "client", "active", "accepted",
      none, none, some 3, some "D1", none⟩
    "D1" 7 (by decide) rfl

/-- Outcome of one attempt of `fetchDriverProjects`: either the project
rows arrive, or the fetch throws with an error message. -/
inductive FetchOutcome where
  | success (projects : List Project)
  | failure (msg : String)
deriving DecidableEq, Repr

/-- The fetch-relevant state of `DriverDataProvider`: the `projects`,
`error` and `retryCount` state cells. -/
structure FetchState where
  projects : List Project
  error : Option String
  retryCount : Nat
deriving DecidableEq, Repr

/-- One attempt of `fetchDriverProjects` (DriverDataContext.tsx lines
93-170): on success the fetched rows fully replace the project set, the
error clears and the retry count resets to 0; on failure the error is
recorded and, while `retryCount < 3`, a timer of `2000 * (retryCount + 1)`
milliseconds is scheduled whose firing increments `retryCount` (which the
auto-retry effect turns into the next attempt).  The second component is
the scheduled timer delay, `none` when no retry is scheduled. -/
def fetchStep (s : FetchState) (o : FetchOutcome) : FetchState × Option Nat :=
  match o with
  | FetchOutcome.success ps => (⟨ps, none, 0⟩, none)
  | FetchOutcome.failure m =>
      if s.retryCount < 3 then
        (⟨s.projects, some m, s.retryCount + 1⟩, some (2000 * (s.retryCount + 1)))
      else
        (⟨s.projects, some m, s.retryCount⟩, none)

/-- The timer-driven retry loop: run the initial fetch and then one
further attempt per scheduled timer, collecting the timer delays in
order.  The loop stops on success or once no timer is scheduled
(retries exhausted). -/
def runFetch : FetchState → List FetchOutcome → FetchState × List Nat
  | s, [] => (s, [])
  | s, o :: rest =>
      match fetchStep s o with
      | (s', none) => (s', [])
      | (s', some d) =>
          ((runFetch s' rest).1, d :: (runFetch s' rest).2)

/-- Each scheduled retry increments `retryCount`, which is capped at 3, so
a run schedules at most `3 - retryCount` further retries. -/
theorem runFetch_length_le (os : List FetchOutcome) (s : FetchState) :
    (runFetch s os).2.length ≤ 3 - s.retryCount := by
  induction os generalizing s with
  | nil => simp [runFetch]
  | cons o rest ih =>
      cases o with
      | success ps => simp [runFetch, fetchStep]
      | failure m =>
          by_cases h : s.retryCount < 3
          · have h2 := ih ⟨s.projects, some m, s.retryCount + 1⟩
            simp only [runFetch, fetchStep, h, if_true, List.length_cons]
            simp only at h2
            omega
          · simp [runFetch, fetchStep, h]

/-- C7: two consecutive transient failures followed by a success drive
exactly 2 timer-scheduled retries with the strictly increasing delays
2000 ms and 4000 ms (base delay times attempt number), end with the
successful rows replacing the project set and the exposed retry count
reset to 0 — and no run ever schedules more than 3 retries before the
persistent error is surfaced. -/
theorem fetch_two_failures_then_success (m1 m2 : String) (ps : List Project) :
    runFetch ⟨[], none, 0⟩
        [FetchOutcome.failure m1, FetchOutcome.failure m2,
         FetchOutcome.success ps] =
      (⟨ps, none, 0⟩, [2000, 4000]) ∧
    (runFetch ⟨[], none, 0⟩
        [FetchOutcome.failure m1, FetchOutcome.failure m2,
         FetchOutcome.success ps]).2.length = 2 ∧
    List.Chain' (fun a b => a < b)
      (runFetch ⟨[], none, 0⟩
        [FetchOutcome.failure m1, FetchOutcome.failure m2,
         FetchOutcome.success ps]).2 ∧
    (∀ os : List FetchOutcome, (runFetch ⟨[], none, 0⟩ os).2.length ≤ 3) := by
  have h : runFetch ⟨[], none, 0⟩
      [FetchOutcome.failure m1, FetchOutcome.failure m2,
       FetchOutcome.success ps] = (⟨ps, none, 0⟩, [2000, 4000]) := by
    simp [runFetch, fetchStep]
  refine ⟨h, ?_, ?_, ?_⟩
  · rw [h]
    rfl
  · rw [h]
    exact List.chain'_pair.mpr (by norm_num)
  · intro os
    simpa using runFetch_length_le os ⟨[], none, 0⟩
